import Mathlib

/-!
Shallow embedding of the change-detection, deduplication and persistence
logic of `game_monitor.py` from the Manifest-Deployment repository.

Network and chat-platform I/O are modelled as explicit inputs and outputs:
a fetch result is a list of raw records, a Playwright session outcome is a
`ScrapeAttempt`, the durable files are components of a `World` value, and a
delivery attempt is an element of a `notified` list.  The per-item
classification, queueing, ordering and state-mutation logic is translated
from the source line by line.
-/

set_option linter.unusedVariables false

/-- Python `a or b` on optional strings: `None` and the empty string are
falsy, and the second operand is returned unchanged when the first is falsy. -/
def pyOrS (a b : Option String) : Option String :=
  match a with
  | none => b
  | some s => if s = "" then b else some s

/-- Python `str.strip()`: remove leading and trailing whitespace. -/
def pyStrip (s : String) : String :=
  ⟨((s.data.dropWhile Char.isWhitespace).reverse.dropWhile Char.isWhitespace).reverse⟩

/-- Python `str.lower()` on the ASCII range. -/
def pyLower (s : String) : String :=
  ⟨s.data.map Char.toLower⟩

/-- Python `str.endswith(suf)`. -/
def strEndsWith (s suf : String) : Bool :=
  suf.data.isSuffixOf s.data

/-- Python `str.startswith(pre)`. -/
def strStartsWith (s pre : String) : Bool :=
  pre.data.isPrefixOf s.data

/-- Python slicing `s[:-n]`: drop the last `n` characters. -/
def strDropRight (s : String) (n : Nat) : String :=
  ⟨s.data.take (s.data.length - n)⟩

/-- Python `needle in hay` on strings: contiguous substring test. -/
def containsSub (needle hay : List Char) : Bool :=
  match hay with
  | [] => needle.isEmpty
  | _ :: t => needle.isPrefixOf hay || containsSub needle t

/-- Payload recorded per game title, the dict `with appid and image`
built at game_monitor.py line 306 and compared at line 315. -/
structure GamePayload where
  appid : String
  image : Option String
deriving DecidableEq, Repr

/-- One raw record of the games.json array.  A field is `none` when the JSON
key is missing or null; numeric appids are taken already rendered by `str`. -/
structure RawGame where
  title : Option String
  name : Option String
  appid : Option String
  id : Option String
  img : Option String
  image : Option String
  header_image : Option String
deriving DecidableEq, Repr

/-- Line 299: `(g.get("title") or g.get("name") or "").strip()`. -/
def strippedTitle (g : RawGame) : String :=
  pyStrip ((pyOrS g.title (pyOrS g.name (some ""))).getD "")

/-- Line 300: `str(g.get("appid") or g.get("id") or "N/A")`. -/
def gameAppid (g : RawGame) : String :=
  (pyOrS g.appid (pyOrS g.id (some "N/A"))).getD "N/A"

/-- Lines 303-304: fall back to `Unknown Game (appid)` when the stripped
title is empty. -/
def gameTitle (g : RawGame) : String :=
  if strippedTitle g = "" then "Unknown Game (" ++ gameAppid g ++ ")"
  else strippedTitle g

/-- Line 301: `g.get("img") or g.get("image") or g.get("header_image")`. -/
def gameImage (g : RawGame) : Option String :=
  pyOrS g.img (pyOrS g.image g.header_image)

/-- The payload stored in `current_map` for one fetched game (line 306). -/
def gamePayload (g : RawGame) : GamePayload :=
  ⟨gameAppid g, gameImage g⟩

/-- Truthiness of a stored channel id: `None` and `0` are falsy in the
checks `self.config.get("channel_id_...")` and `if not ch`. -/
def chanTruthy : Option Nat → Bool
  | none => false
  | some c => c != 0

/-- One entry of the fixes list: the dict built at lines 126 and 224. -/
structure FixEntry where
  title : String
  download : String
  size : String
deriving DecidableEq, Repr

/-- One `.file-item` element as the Playwright scraper sees it: the inner
text of its `.file-name` child (`none` when the child is absent), the inner
text of its `.file-size` child, and its `href` attribute. -/
structure RawFileItem where
  name : Option String
  size : Option String
  href : Option String
deriving DecidableEq, Repr

/-- State of the durable fixes_cache.json file. -/
inductive FixCacheFile
  | absent
  | corrupt
  | stored (entries : List FixEntry)
deriving DecidableEq, Repr

/-- Outcome of one Playwright session: either every `.file-item` element was
extracted, or some stage (navigation, selector wait, script evaluation)
raised an exception. -/
inductive ScrapeAttempt
  | ok (items : List RawFileItem)
  | err
deriving DecidableEq, Repr

def extTarGz : String := ".tar.gz"

def extZip : String := ".zip"

def extRar : String := ".rar"

def ext7z : String := ".7z"

/-- Line 123 / 211: `re.sub` removing a case-insensitive trailing archive
extension `.zip`, `.rar`, `.7z` or `.tar.gz`. -/
def stripArchiveExt (s : String) : String :=
  let lower := pyLower s
  if strEndsWith lower extTarGz then strDropRight s 7
  else if strEndsWith lower extZip then strDropRight s 4
  else if strEndsWith lower extRar then strDropRight s 4
  else if strEndsWith lower ext7z then strDropRight s 3
  else s

def fixesOrigin : String := "https://generator.ryuu.lol"

def slashStr : String := "/"

/-- Extraction of one `.file-item` inside the Playwright scrape (lines
114-126): items without a truthy name are skipped; the title is the name
with any archive extension stripped, then stripped of whitespace; a
root-relative href is resolved against the upstream origin. -/
def extractFixItem (it : RawFileItem) : Option FixEntry :=
  let href0 := it.href.getD ""
  let size0 := it.size.getD ""
  match it.name with
  | none => none
  | some nm =>
    if nm = "" then none
    else
      let href1 := if strStartsWith href0 slashStr then fixesOrigin ++ href0 else href0
      some ⟨pyStrip (stripArchiveExt nm), href1, size0⟩

/-- Lines 141-148: return the parsed cache file content; a missing or
unreadable file yields the empty list (the read error is caught). -/
def load_fixes_cache : FixCacheFile → List FixEntry
  | .stored entries => entries
  | _ => []

/-- Lines 150-155: overwrite the cache file with the given entries. -/
def save_fixes_cache (entries : List FixEntry) (old : FixCacheFile) : FixCacheFile :=
  .stored entries

/-- Lines 90-138: on a successful session, extract all items, write the
cache and return the fresh entries; on any exception, fall back to the
cached content (leaving the cache file untouched).  The function always
returns a list, never propagating the failure. -/
def scrape_fixes_with_playwright (att : ScrapeAttempt) (cache : FixCacheFile) :
    List FixEntry × FixCacheFile :=
  match att with
  | .ok items =>
    let fixes := items.filterMap extractFixItem
    (fixes, save_fixes_cache fixes cache)
  | .err => (load_fixes_cache cache, cache)

/-- In-memory state of a `GameMonitor`: the three seen-sets, the three
channel bindings and the `game_cache` mapping held inside `self.config`. -/
structure MonitorState where
  seen_new : Finset String
  seen_update : Finset String
  seen_fixed : Finset String
  channel_id_new : Option Nat
  channel_id_update : Option Nat
  channel_id_fixed : Option Nat
  game_cache : String → Option GamePayload

/-- The monitor state together with the durable files it owns.  The config
file is modelled by the semantic content written at the last `save_config`
(`none` before any save); JSON serialization of a dict round-trips, and the
set-iteration-order aspect of serialization is treated separately in the
round-trip development below. -/
structure World where
  state : MonitorState
  configFile : Option MonitorState
  fixesCache : FixCacheFile

/-- Value of `self.config.get("game_cache", {}).get(title, {})`: either the
recorded payload dict or the empty dict.  The empty dict compares unequal
to every two-key payload dict. -/
inductive CacheVal
  | emptyDict
  | payloadDict (p : GamePayload)
deriving DecidableEq, Repr

def cacheGet (m : String → Option GamePayload) (k : String) : CacheVal :=
  match m k with
  | some p => .payloadDict p
  | none => .emptyDict

/-- The loop `current_map[title] = ...` (line 306) assigning per fetched
record in order, later assignments overwriting earlier ones. -/
def buildMapFrom (m : String → Option GamePayload) :
    List RawGame → (String → Option GamePayload)
  | [] => m
  | g :: gs =>
    buildMapFrom (fun k => if k = gameTitle g then some (gamePayload g) else m k) gs

def buildCurrentMap (games : List RawGame) : String → Option GamePayload :=
  buildMapFrom (fun _ => none) games

/-- Lines 309-310: titles appended to `new_post_queue`, in fetch order. -/
def newQueueOf (games : List RawGame) (s : MonitorState) : List String :=
  (games.filter (fun g => decide (gameTitle g ∉ s.seen_new))).map gameTitle

/-- Lines 313-316: titles appended to `update_post_queue`: the key is
already in `seen_new` and the freshly built payload dict differs from the
cached one. -/
def updQueueOf (games : List RawGame) (s : MonitorState) : List String :=
  (games.filter (fun g => decide (gameTitle g ∈ s.seen_new ∧
      cacheGet s.game_cache (gameTitle g) ≠ CacheVal.payloadDict (gamePayload g)))).map
    gameTitle

/-- Result of one run of `process_games_new_updated`: the two
classification queues (fetch order), the two notification batches
(`safe_send` calls, in sending order) and the world after the run. -/
structure GamesResult where
  newQueue : List String
  updateQueue : List String
  notifiedNew : List String
  notifiedUpd : List String
  world : World

/-- Lines 288-338.  An empty fetch returns immediately.  Otherwise the two
queues are classified; each queue is sent (sorted) only when it is nonempty
and its channel binding is truthy, and only then is the corresponding
seen-set enlarged; finally `game_cache` is replaced wholesale by the fresh
map and the config is saved. -/
def process_games_new_updated (games : List RawGame) (w : World) : GamesResult :=
  if games.isEmpty then ⟨[], [], [], [], w⟩
  else
    let s := w.state
    let currentMap := buildCurrentMap games
    let newQ := newQueueOf games s
    let updQ := updQueueOf games s
    let doNew := decide (newQ ≠ []) && chanTruthy s.channel_id_new
    let doUpd := decide (updQ ≠ []) && chanTruthy s.channel_id_update
    let notifiedNew := if doNew then List.insertionSort (· ≤ ·) newQ else []
    let notifiedUpd := if doUpd then List.insertionSort (· ≤ ·) updQ else []
    let s2 : MonitorState :=
      ⟨if doNew then s.seen_new ∪ newQ.toFinset else s.seen_new,
       if doUpd then s.seen_update ∪ updQ.toFinset else s.seen_update,
       s.seen_fixed, s.channel_id_new, s.channel_id_update, s.channel_id_fixed,
       currentMap⟩
    ⟨newQ, updQ, notifiedNew, notifiedUpd, ⟨s2, some s2, w.fixesCache⟩⟩

/-- Result of one run of `process_fixes`: titles classified new (fetch
order), the notification batch actually sent, and the world after the run. -/
structure FixesResult where
  newTitles : List String
  notified : List String
  world : World

/-- Lines 342-373.  The fixes come from the Playwright scrape (which may
touch the fixes cache file).  An empty result returns immediately; with no
new title it returns; with no truthy fixed-channel binding it returns
before sending, before enlarging `seen_fixed`, and before saving the
config; otherwise every new title is sent in fetch order, `seen_fixed` is
enlarged and the config saved. -/
def process_fixes (att : ScrapeAttempt) (w : World) : FixesResult :=
  let scr := scrape_fixes_with_playwright att w.fixesCache
  let w1 : World := ⟨w.state, w.configFile, scr.2⟩
  if scr.1.isEmpty then ⟨[], [], w1⟩
  else
    let newList := scr.1.filter (fun f => decide (f.title ∉ w.state.seen_fixed))
    let newTitles := newList.map FixEntry.title
    if newTitles.isEmpty then ⟨[], [], w1⟩
    else if chanTruthy w.state.channel_id_fixed then
      let s2 : MonitorState :=
        ⟨w.state.seen_new, w.state.seen_update,
         w.state.seen_fixed ∪ newTitles.toFinset,
         w.state.channel_id_new, w.state.channel_id_update,
         w.state.channel_id_fixed, w.state.game_cache⟩
      ⟨newTitles, newTitles, ⟨s2, some s2, scr.2⟩⟩
    else ⟨newTitles, [], w1⟩

/-- Control-flow trace of one `monitor_loop` tick. -/
structure TickTrace where
  fixesInvoked : Bool
  exceptionCaught : Bool
deriving DecidableEq, Repr

/-- Lines 378-386: both pipeline awaits sit inside one `try` block whose
handler logs the exception.  `gamesRaises` (resp. `fixesRaises`) models the
corresponding pipeline raising; a raising pipeline's own state effects up
to the raise point are not modelled, only the tick's control flow and the
effects of pipelines that complete. -/
def monitor_loop_tick (gamesRaises : Bool) (games : List RawGame)
    (fixesRaises : Bool) (att : ScrapeAttempt) (w : World) : TickTrace × World :=
  if gamesRaises then (⟨false, true⟩, w)
  else
    let w1 := (process_games_new_updated games w).world
    if fixesRaises then (⟨true, true⟩, w1)
    else (⟨true, false⟩, (process_fixes att w1).world)

/-- One scheduled poll cycle in which neither pipeline raises: games
pipeline then fixes pipeline (lines 383-384). -/
def runPoll (inp : List RawGame × ScrapeAttempt) (w : World) : World :=
  (process_fixes inp.2 (process_games_new_updated inp.1 w).world).world

/-- A sequence of poll cycles. -/
def runPolls (hist : List (List RawGame × ScrapeAttempt)) (w : World) : World :=
  hist.foldl (fun w inp => runPoll inp w) w

/-- Serialized form of game_config.json: the three seen-sets written as
lists (`list(self.seen_new)` etc., lines 52-55, in whatever order the set
iterates), alongside the channel bindings and the game cache kept inside
`self.config`. -/
structure ConfigJson where
  seen_new : List String
  seen_update : List String
  seen_fixed : List String
  channel_id_new : Option Nat
  channel_id_update : Option Nat
  channel_id_fixed : Option Nat
  game_cache : String → Option GamePayload

/-- Lines 52-57: `save_config` with an explicit enumeration of each seen-set
standing for Python's arbitrary set iteration order. -/
def save_config (s : MonitorState) (eN eU eF : List String) : ConfigJson :=
  ⟨eN, eU, eF, s.channel_id_new, s.channel_id_update, s.channel_id_fixed,
   s.game_cache⟩

/-- Lines 26-36: `load_config` followed by the `__init__` body: each
seen-set is rebuilt with `set(...)` from the stored list, and the channel
keys are kept (`setdefault` leaves present keys unchanged). -/
def init_from_config (c : ConfigJson) : MonitorState :=
  ⟨c.seen_new.toFinset, c.seen_update.toFinset, c.seen_fixed.toFinset,
   c.channel_id_new, c.channel_id_update, c.channel_id_fixed, c.game_cache⟩

/-- Lines 568-577 of the `newgame` command: the key of one fetched record,
identical to the poll pipeline's title computation. -/
def newgameKey (g : RawGame) : String := gameTitle g

/-- Lines 556-592, display logic of the `newgame` command: the keys shown
directly (`new_keys[:10]`) and, when more were found, the reported total
count. -/
def newgame_display (games : List RawGame) (s : MonitorState) :
    List String × Option Nat :=
  let newKeys := (games.map newgameKey).filter (fun k => decide (k ∉ s.seen_new))
  (newKeys.take 10, if newKeys.length > 10 then some newKeys.length else none)

/-- Lines 607-613 of the `updategame` command: name without the
`Unknown Game` fallback, appid, and image with a trailing `or None`. -/
def updItemOf (g : RawGame) : String × String × Option String :=
  (pyStrip ((pyOrS g.title (pyOrS g.name (some ""))).getD ""),
   gameAppid g,
   pyOrS g.img (pyOrS g.image (pyOrS g.header_image none)))

/-- Lines 596-622, display logic of the `updategame` command: every fetched
record whose name is not in `seen_update` is sent as an embed, in fetch
order (the loop iterates over all of `results`). -/
def updategame_display (games : List RawGame) (s : MonitorState) :
    List (String × String × Option String) :=
  (games.filter (fun g => decide ((updItemOf g).1 ∉ s.seen_update))).map updItemOf

/-- The `newgame` handler (lines 556-594) acting on the world: it fetches,
classifies read-only and renders; it performs no write to the monitor
state, the config file or the fixes cache. -/
def newgame_handler (games : List RawGame) (w : World) :
    (List String × Option Nat) × World :=
  (newgame_display games w.state, w)

/-- The `updategame` handler (lines 596-631) acting on the world. -/
def updategame_handler (games : List RawGame) (w : World) :
    List (String × String × Option String) × World :=
  (updategame_display games w.state, w)

/-- Line 517 / 713: title with the `Unknown Game` default and no strip. -/
def listTitle (g : RawGame) : String :=
  (pyOrS g.title (pyOrS g.name (some "Unknown Game"))).getD "Unknown Game"

/-- The `gamelist` handler (lines 506-551): one (title, appid) line per
fetched record, rendered and paginated without touching any state. -/
def gamelist_handler (games : List RawGame) (w : World) :
    List (String × String) × World :=
  (games.map (fun g => (listTitle g, gameAppid g)), w)

/-- Line 715: case-insensitive substring match on the title, or plain
substring match on the appid. -/
def searchMatches (query : String) (g : RawGame) : Bool :=
  containsSub (pyLower query).data (pyLower (listTitle g)).data ||
  containsSub query.data (gameAppid g).data

/-- The `gamesearch` handler (lines 698-748). -/
def gamesearch_handler (query : String) (games : List RawGame) (w : World) :
    List (String × String) × World :=
  ((games.filter (searchMatches query)).map (fun g => (listTitle g, gameAppid g)), w)

/-- The `fixegame` handler (lines 635-696): Playwright scrape first (which
may rewrite the fixes cache file), falling back to the plain HTML parse
(given here as its parsed result) when the scrape yields nothing; the
monitor state and config file are untouched. -/
def fixegame_handler (att : ScrapeAttempt) (htmlFallback : List FixEntry)
    (w : World) : List FixEntry × World :=
  let scr := scrape_fixes_with_playwright att w.fixesCache
  let fixes := if scr.1.isEmpty then htmlFallback else scr.1
  (fixes, ⟨w.state, w.configFile, scr.2⟩)

/-! ### Concrete fixtures used by witnesses and counterexamples -/

def gAlpha : RawGame := ⟨some "Alpha", none, some "1", none, some "x", none, none⟩

def gAlphaY : RawGame := ⟨some "Alpha", none, some "1", none, some "y", none, none⟩

def gBeta : RawGame := ⟨some "Beta", none, some "2", none, some "b", none, none⟩

def fixItemOne : RawFileItem := ⟨some "Fix One.zip", some "10 MB", some "/f/1"⟩

def fixEntryOne : FixEntry := ⟨"Fix One", "https://generator.ryuu.lol/f/1", "10 MB"⟩

def emptyCache : String → Option GamePayload := fun _ => none

def stateNoChannels : MonitorState := ⟨∅, ∅, ∅, none, none, none, emptyCache⟩

def worldNoChannels : World := ⟨stateNoChannels, none, .absent⟩

def stateAllChannels : MonitorState := ⟨∅, ∅, ∅, some 5, some 6, some 7, emptyCache⟩

def worldAllChannels : World := ⟨stateAllChannels, none, .absent⟩

def cacheAlpha : String → Option GamePayload :=
  fun k => if k = "Alpha" then some ⟨"1", some "x"⟩ else none

def stateSeenAlpha : MonitorState :=
  ⟨{"Alpha"}, ∅, {"Alpha"}, some 5, some 6, some 7, cacheAlpha⟩

def worldSeenAlpha : World := ⟨stateSeenAlpha, none, .absent⟩

def cacheBeta : String → Option GamePayload :=
  fun k => if k = "Beta" then some ⟨"2", some "b"⟩ else none

def stateSeenBeta : MonitorState :=
  ⟨{"Beta"}, ∅, ∅, some 5, some 6, some 7, cacheBeta⟩

def worldSeenBeta : World := ⟨stateSeenBeta, none, .absent⟩

def cacheAB : String → Option GamePayload :=
  fun k => if k = "A" then some ⟨"1", none⟩ else none

def stateTwo : MonitorState := ⟨{"A", "B"}, {"C"}, {"D"}, some 5, none, some 0, cacheAB⟩

def mkTitled (n : String) : RawGame := ⟨some n, none, some "9", none, none, none, none⟩

def elevenGames : List RawGame :=
  [mkTitled "A", mkTitled "B", mkTitled "C", mkTitled "D", mkTitled "E", mkTitled "F",
   mkTitled "G", mkTitled "H", mkTitled "I", mkTitled "J", mkTitled "K"]

/-! ### Helper lemmas -/

lemma mem_newQueueOf {games : List RawGame} {s : MonitorState} {k : String} :
    k ∈ newQueueOf games s ↔ ∃ g, g ∈ games ∧ gameTitle g = k ∧ k ∉ s.seen_new := by
  unfold newQueueOf
  simp only [List.mem_map, List.mem_filter, decide_eq_true_eq]
  constructor
  · rintro ⟨g, ⟨hg, hns⟩, rfl⟩
    exact ⟨g, hg, rfl, hns⟩
  · rintro ⟨g, hg, rfl, hns⟩
    exact ⟨g, ⟨hg, hns⟩, rfl⟩

lemma mem_updQueueOf {games : List RawGame} {s : MonitorState} {k : String} :
    k ∈ updQueueOf games s ↔ ∃ g, g ∈ games ∧ gameTitle g = k ∧ k ∈ s.seen_new ∧
      cacheGet s.game_cache k ≠ CacheVal.payloadDict (gamePayload g) := by
  unfold updQueueOf
  simp only [List.mem_map, List.mem_filter, decide_eq_true_eq]
  constructor
  · rintro ⟨g, ⟨hg, hs, hne⟩, rfl⟩
    exact ⟨g, hg, rfl, hs, hne⟩
  · rintro ⟨g, hg, rfl, hs, hne⟩
    exact ⟨g, ⟨hg, hs, hne⟩, rfl⟩

lemma not_mem_newQueueOf_of_seen {games : List RawGame} {s : MonitorState} {k : String}
    (hk : k ∈ s.seen_new) : k ∉ newQueueOf games s := by
  intro h
  rcases mem_newQueueOf.mp h with ⟨g, -, -, hns⟩
  exact hns hk

lemma process_games_empty {games : List RawGame} {w : World} (h : games.isEmpty) :
    process_games_new_updated games w = ⟨[], [], [], [], w⟩ := by
  unfold process_games_new_updated
  simp [h]

lemma process_games_ne {games : List RawGame} {w : World} (h : ¬ games.isEmpty) :
    process_games_new_updated games w =
      ⟨newQueueOf games w.state, updQueueOf games w.state,
       if decide (newQueueOf games w.state ≠ []) && chanTruthy w.state.channel_id_new then
         List.insertionSort (· ≤ ·) (newQueueOf games w.state) else [],
       if decide (updQueueOf games w.state ≠ []) && chanTruthy w.state.channel_id_update then
         List.insertionSort (· ≤ ·) (updQueueOf games w.state) else [],
       ⟨⟨(if decide (newQueueOf games w.state ≠ []) && chanTruthy w.state.channel_id_new then
            w.state.seen_new ∪ (newQueueOf games w.state).toFinset else w.state.seen_new),
         (if decide (updQueueOf games w.state ≠ []) && chanTruthy w.state.channel_id_update then
            w.state.seen_update ∪ (updQueueOf games w.state).toFinset else w.state.seen_update),
         w.state.seen_fixed, w.state.channel_id_new, w.state.channel_id_update,
         w.state.channel_id_fixed, buildCurrentMap games⟩,
        some ⟨(if decide (newQueueOf games w.state ≠ []) && chanTruthy w.state.channel_id_new then
                 w.state.seen_new ∪ (newQueueOf games w.state).toFinset else w.state.seen_new),
              (if decide (updQueueOf games w.state ≠ []) && chanTruthy w.state.channel_id_update then
                 w.state.seen_update ∪ (updQueueOf games w.state).toFinset else w.state.seen_update),
              w.state.seen_fixed, w.state.channel_id_new, w.state.channel_id_update,
              w.state.channel_id_fixed, buildCurrentMap games⟩,
        w.fixesCache⟩⟩ := by
  unfold process_games_new_updated
  simp [h]

lemma process_fixes_unfold (att : ScrapeAttempt) (w : World) :
    process_fixes att w =
      (let scr := scrape_fixes_with_playwright att w.fixesCache
       let w1 : World := ⟨w.state, w.configFile, scr.2⟩
       if scr.1.isEmpty then ⟨[], [], w1⟩
       else
         let newList := scr.1.filter (fun f => decide (f.title ∉ w.state.seen_fixed))
         let newTitles := newList.map FixEntry.title
         if newTitles.isEmpty then ⟨[], [], w1⟩
         else if chanTruthy w.state.channel_id_fixed then
           let s2 : MonitorState :=
             ⟨w.state.seen_new, w.state.seen_update,
              w.state.seen_fixed ∪ newTitles.toFinset,
              w.state.channel_id_new, w.state.channel_id_update,
              w.state.channel_id_fixed, w.state.game_cache⟩
           ⟨newTitles, newTitles, ⟨s2, some s2, scr.2⟩⟩
         else ⟨newTitles, [], w1⟩ : FixesResult) := rfl

lemma seen_new_subset_games (games : List RawGame) (w : World) :
    w.state.seen_new ⊆ (process_games_new_updated games w).world.state.seen_new := by
  by_cases h : games.isEmpty
  · rw [process_games_empty h]
  · rw [process_games_ne h]
    dsimp only
    split
    · exact Finset.subset_union_left
    · exact Finset.Subset.refl _

lemma seen_update_subset_games (games : List RawGame) (w : World) :
    w.state.seen_update ⊆ (process_games_new_updated games w).world.state.seen_update := by
  by_cases h : games.isEmpty
  · rw [process_games_empty h]
  · rw [process_games_ne h]
    dsimp only
    split
    · exact Finset.subset_union_left
    · exact Finset.Subset.refl _

lemma seen_fixed_eq_games (games : List RawGame) (w : World) :
    (process_games_new_updated games w).world.state.seen_fixed = w.state.seen_fixed := by
  by_cases h : games.isEmpty
  · rw [process_games_empty h]
  · rw [process_games_ne h]

lemma process_fixes_state_cases (att : ScrapeAttempt) (w : World) :
    (process_fixes att w).world.state = w.state ∨
    (process_fixes att w).world.state =
      ⟨w.state.seen_new, w.state.seen_update,
       w.state.seen_fixed ∪ ((process_fixes att w).newTitles).toFinset,
       w.state.channel_id_new, w.state.channel_id_update,
       w.state.channel_id_fixed, w.state.game_cache⟩ := by
  unfold process_fixes
  dsimp only
  split
  · exact Or.inl rfl
  · split
    · exact Or.inl rfl
    · split
      · exact Or.inr rfl
      · exact Or.inl rfl

lemma seen_new_eq_fixes (att : ScrapeAttempt) (w : World) :
    (process_fixes att w).world.state.seen_new = w.state.seen_new := by
  rcases process_fixes_state_cases att w with h | h <;> rw [h]

lemma seen_update_eq_fixes (att : ScrapeAttempt) (w : World) :
    (process_fixes att w).world.state.seen_update = w.state.seen_update := by
  rcases process_fixes_state_cases att w with h | h <;> rw [h]

lemma seen_fixed_subset_fixes (att : ScrapeAttempt) (w : World) :
    w.state.seen_fixed ⊆ (process_fixes att w).world.state.seen_fixed := by
  rcases process_fixes_state_cases att w with h | h <;> rw [h]
  exact Finset.subset_union_left

lemma mem_newTitles_fixes {att : ScrapeAttempt} {w : World} {k : String}
    (h : k ∈ (process_fixes att w).newTitles) : k ∉ w.state.seen_fixed := by
  revert h
  unfold process_fixes
  dsimp only
  split
  · intro h; cases h
  · split
    · intro h; cases h
    · have core : k ∈ ((scrape_fixes_with_playwright att w.fixesCache).1.filter
          (fun f => decide (f.title ∉ w.state.seen_fixed))).map FixEntry.title →
          k ∉ w.state.seen_fixed := by
        intro h
        simp only [List.mem_map, List.mem_filter, decide_eq_true_eq] at h
        rcases h with ⟨f, ⟨-, hf⟩, rfl⟩
        exact hf
      split
      · exact core
      · exact core

lemma runPoll_seen_new_subset (inp : List RawGame × ScrapeAttempt) (w : World) :
    w.state.seen_new ⊆ (runPoll inp w).state.seen_new := by
  unfold runPoll
  rw [seen_new_eq_fixes]
  exact seen_new_subset_games _ _

lemma runPoll_seen_update_subset (inp : List RawGame × ScrapeAttempt) (w : World) :
    w.state.seen_update ⊆ (runPoll inp w).state.seen_update := by
  unfold runPoll
  rw [seen_update_eq_fixes]
  exact seen_update_subset_games _ _

lemma runPoll_seen_fixed_subset (inp : List RawGame × ScrapeAttempt) (w : World) :
    w.state.seen_fixed ⊆ (runPoll inp w).state.seen_fixed := by
  unfold runPoll
  refine Finset.Subset.trans ?_ (seen_fixed_subset_fixes _ _)
  rw [seen_fixed_eq_games]

lemma runPolls_seen_new_subset (hist : List (List RawGame × ScrapeAttempt)) (w : World) :
    w.state.seen_new ⊆ (runPolls hist w).state.seen_new := by
  induction hist generalizing w with
  | nil => exact Finset.Subset.refl _
  | cons inp tl ih =>
    exact Finset.Subset.trans (runPoll_seen_new_subset inp w) (ih (runPoll inp w))

lemma runPolls_seen_update_subset (hist : List (List RawGame × ScrapeAttempt)) (w : World) :
    w.state.seen_update ⊆ (runPolls hist w).state.seen_update := by
  induction hist generalizing w with
  | nil => exact Finset.Subset.refl _
  | cons inp tl ih =>
    exact Finset.Subset.trans (runPoll_seen_update_subset inp w) (ih (runPoll inp w))

lemma runPolls_seen_fixed_subset (hist : List (List RawGame × ScrapeAttempt)) (w : World) :
    w.state.seen_fixed ⊆ (runPolls hist w).state.seen_fixed := by
  induction hist generalizing w with
  | nil => exact Finset.Subset.refl _
  | cons inp tl ih =>
    exact Finset.Subset.trans (runPoll_seen_fixed_subset inp w) (ih (runPoll inp w))

lemma newQueue_sub_newQueueOf (games : List RawGame) (w : World) :
    (process_games_new_updated games w).newQueue = [] ∨
    (process_games_new_updated games w).newQueue = newQueueOf games w.state := by
  by_cases h : games.isEmpty
  · rw [process_games_empty h]; exact Or.inl rfl
  · rw [process_games_ne h]; exact Or.inr rfl

/-! ### Claim theorems -/

/-- C1 counterexample: with no destination channel bound, a fetch producing
one New item ("Alpha") makes zero delivery attempts, yet contrary to the
claim the seen-set does not receive the key and no fixed title is recorded
either. -/
theorem c1_counterexample :
    (process_games_new_updated [gAlpha] worldNoChannels).newQueue = ["Alpha"]
    ∧ (process_games_new_updated [gAlpha] worldNoChannels).notifiedNew = []
    ∧ "Alpha" ∉ (process_games_new_updated [gAlpha] worldNoChannels).world.state.seen_new
    ∧ (process_fixes (ScrapeAttempt.ok [fixItemOne]) worldNoChannels).newTitles = ["Fix One"]
    ∧ (process_fixes (ScrapeAttempt.ok [fixItemOne]) worldNoChannels).notified = []
    ∧ "Fix One" ∉ (process_fixes (ScrapeAttempt.ok [fixItemOne]) worldNoChannels).world.state.seen_fixed := by
  refine ⟨by decide, by decide, by decide, by decide, by decide, by decide⟩

/-- C1 (amended): when a feature's destination binding is absent (falsy),
zero delivery attempts are made for that feature and its seen-set is left
unchanged, not updated; the games pipeline still replaces the payload cache
and persists the config on a non-empty fetch, while the fixes pipeline
returns before touching state or config file. -/
theorem c1_amended_no_binding (games : List RawGame) (att : ScrapeAttempt) (w : World) :
    (chanTruthy w.state.channel_id_new = false →
      (process_games_new_updated games w).notifiedNew = []
      ∧ (process_games_new_updated games w).world.state.seen_new = w.state.seen_new)
    ∧ (chanTruthy w.state.channel_id_update = false →
      (process_games_new_updated games w).notifiedUpd = []
      ∧ (process_games_new_updated games w).world.state.seen_update = w.state.seen_update)
    ∧ (¬ games.isEmpty →
      (process_games_new_updated games w).world.configFile =
        some (process_games_new_updated games w).world.state
      ∧ (process_games_new_updated games w).world.state.game_cache = buildCurrentMap games)
    ∧ (chanTruthy w.state.channel_id_fixed = false →
      (process_fixes att w).notified = []
      ∧ (process_fixes att w).world.state = w.state
      ∧ (process_fixes att w).world.configFile = w.configFile) := by
  refine ⟨?_, ?_, ?_, ?_⟩
  · intro hch
    by_cases h : games.isEmpty
    · rw [process_games_empty h]
      exact ⟨rfl, rfl⟩
    · rw [process_games_ne h]
      simp [hch]
  · intro hch
    by_cases h : games.isEmpty
    · rw [process_games_empty h]
      exact ⟨rfl, rfl⟩
    · rw [process_games_ne h]
      simp [hch]
  · intro h
    rw [process_games_ne h]
    exact ⟨rfl, rfl⟩
  · intro hch
    unfold process_fixes
    dsimp only
    split
    · exact ⟨rfl, rfl, rfl⟩
    · split
      · exact ⟨rfl, rfl, rfl⟩
      · split
        · simp_all
        · exact ⟨rfl, rfl, rfl⟩

/-- C1 amended witness: instantiation at a world with no bindings and a
fetch containing one New game and one New fix. -/
theorem c1_amended_witness :
    (chanTruthy worldNoChannels.state.channel_id_new = false
     ∧ chanTruthy worldNoChannels.state.channel_id_fixed = false
     ∧ ¬ ([gAlpha] : List RawGame).isEmpty)
    ∧ ((process_games_new_updated [gAlpha] worldNoChannels).notifiedNew = []
       ∧ (process_games_new_updated [gAlpha] worldNoChannels).world.state.seen_new =
           worldNoChannels.state.seen_new)
    ∧ ((process_games_new_updated [gAlpha] worldNoChannels).notifiedUpd = []
       ∧ (process_games_new_updated [gAlpha] worldNoChannels).world.state.seen_update =
           worldNoChannels.state.seen_update)
    ∧ ((process_games_new_updated [gAlpha] worldNoChannels).world.configFile =
         some (process_games_new_updated [gAlpha] worldNoChannels).world.state
       ∧ (process_games_new_updated [gAlpha] worldNoChannels).world.state.game_cache =
           buildCurrentMap [gAlpha])
    ∧ ((process_fixes (ScrapeAttempt.ok [fixItemOne]) worldNoChannels).notified = []
       ∧ (process_fixes (ScrapeAttempt.ok [fixItemOne]) worldNoChannels).world.state =
           worldNoChannels.state
       ∧ (process_fixes (ScrapeAttempt.ok [fixItemOne]) worldNoChannels).world.configFile =
           worldNoChannels.configFile) :=
  ⟨⟨rfl, rfl, by decide⟩,
   (c1_amended_no_binding [gAlpha] (ScrapeAttempt.ok [fixItemOne]) worldNoChannels).1 rfl,
   (c1_amended_no_binding [gAlpha] (ScrapeAttempt.ok [fixItemOne]) worldNoChannels).2.1 rfl,
   (c1_amended_no_binding [gAlpha] (ScrapeAttempt.ok [fixItemOne]) worldNoChannels).2.2.1 (by decide),
   (c1_amended_no_binding [gAlpha] (ScrapeAttempt.ok [fixItemOne]) worldNoChannels).2.2.2 rfl⟩

/-- C2 counterexample: in a tick where the games pipeline raises, the
exception is caught but the fixes pipeline is not invoked, contrary to the
claim that it still runs in the same tick. -/
theorem c2_counterexample :
    (monitor_loop_tick true [gAlpha] false (ScrapeAttempt.ok [fixItemOne])
        worldAllChannels).1.fixesInvoked = false
    ∧ (monitor_loop_tick true [gAlpha] false (ScrapeAttempt.ok [fixItemOne])
        worldAllChannels).1.exceptionCaught = true :=
  ⟨rfl, rfl⟩

/-- C2 (amended): a games-pipeline exception is caught and logged by the
tick's single try/except, but the fixes pipeline does not run in that tick;
the fixes pipeline runs (after the games pipeline) exactly in ticks where
the games pipeline completes. -/
theorem c2_amended_tick_control_flow (games : List RawGame) (fixesRaises : Bool)
    (att : ScrapeAttempt) (w : World) :
    (monitor_loop_tick true games fixesRaises att w).1.exceptionCaught = true
    ∧ (monitor_loop_tick true games fixesRaises att w).1.fixesInvoked = false
    ∧ (monitor_loop_tick true games fixesRaises att w).2 = w
    ∧ (monitor_loop_tick false games false att w).1.fixesInvoked = true
    ∧ (monitor_loop_tick false games false att w).1.exceptionCaught = false
    ∧ (monitor_loop_tick false games false att w).2 =
        (process_fixes att (process_games_new_updated games w).world).world :=
  ⟨rfl, rfl, rfl, rfl, rfl, rfl⟩

/-- C4: the `newgame` handler caps direct display at 10 and reports the
total count when truncated, but the `updategame` handler, on a fetch of 11
not-yet-seen games, sends all 11 embeds with no cap and no count report,
contradicting both the claim and the source's own comment at line 619. -/
theorem c4_updategame_unbounded :
    (newgame_display elevenGames stateNoChannels).1.length = 10
    ∧ (newgame_display elevenGames stateNoChannels).2 = some 11
    ∧ (updategame_display elevenGames stateNoChannels).length = 11 := by
  refine ⟨by decide, by decide, by decide⟩

/-- C7: the scripted fixes scrape recovers from any session failure by
returning the last cached extraction (empty if the cache file is missing or
unreadable) and leaving the cache file untouched; a successful session
returns the freshly extracted entries and overwrites the cache file with
exactly those entries.  Being a total function, it never propagates the
failure. -/
theorem c7_scrape_fallback (att : ScrapeAttempt) (cache : FixCacheFile) :
    scrape_fixes_with_playwright ScrapeAttempt.err cache = (load_fixes_cache cache, cache)
    ∧ load_fixes_cache FixCacheFile.absent = []
    ∧ load_fixes_cache FixCacheFile.corrupt = []
    ∧ (∀ entries, load_fixes_cache (FixCacheFile.stored entries) = entries)
    ∧ (∀ items, scrape_fixes_with_playwright (ScrapeAttempt.ok items) cache =
        (items.filterMap extractFixItem,
         FixCacheFile.stored (items.filterMap extractFixItem)))
    ∧ (scrape_fixes_with_playwright att cache).2 =
        (match att with
         | ScrapeAttempt.ok items => FixCacheFile.stored (items.filterMap extractFixItem)
         | ScrapeAttempt.err => cache) := by
  refine ⟨rfl, rfl, rfl, fun _ => rfl, fun _ => rfl, ?_⟩
  cases att <;> rfl

/-- C8: saving the in-memory state and re-initializing from the saved file
reproduces the same snapshot — the same three seen-sets and the same
game_cache mapping — for every serialization order of the sets. -/
theorem c8_config_roundtrip (s : MonitorState) (eN eU eF : List String)
    (hN : eN.toFinset = s.seen_new) (hU : eU.toFinset = s.seen_update)
    (hF : eF.toFinset = s.seen_fixed) :
    init_from_config (save_config s eN eU eF) = s := by
  cases s
  simp only [save_config, init_from_config] at *
  rw [hN, hU, hF]

/-- C8 witness: a state with multi-element seen-sets, serialized in an
order different from the set-literal order. -/
theorem c8_config_roundtrip_witness :
    ((["B", "A"] : List String).toFinset = stateTwo.seen_new
     ∧ (["C"] : List String).toFinset = stateTwo.seen_update
     ∧ (["D"] : List String).toFinset = stateTwo.seen_fixed)
    ∧ init_from_config (save_config stateTwo ["B", "A"] ["C"] ["D"]) = stateTwo :=
  ⟨⟨by decide, by decide, by decide⟩,
   c8_config_roundtrip stateTwo ["B", "A"] ["C"] ["D"] (by decide) (by decide) (by decide)⟩

/-- C9: none of the on-demand query handlers (newgame, updategame,
gamelist, gamesearch, fixegame) mutates the monitor's seen-sets, its
game_cache, or the persisted config file; only fixegame may rewrite the
separate fixes cache file through the scrape. -/
theorem c9_handlers_frame (games : List RawGame) (query : String)
    (att : ScrapeAttempt) (htmlFallback : List FixEntry) (w : World) :
    (newgame_handler games w).2 = w
    ∧ (updategame_handler games w).2 = w
    ∧ (gamelist_handler games w).2 = w
    ∧ (gamesearch_handler query games w).2 = w
    ∧ (fixegame_handler att htmlFallback w).2.state = w.state
    ∧ (fixegame_handler att htmlFallback w).2.configFile = w.configFile :=
  ⟨rfl, rfl, rfl, rfl, rfl, rfl⟩

lemma insertionSort_eq_of_perm {l1 l2 : List String} (h : List.Perm l1 l2) :
    List.insertionSort (· ≤ ·) l1 = List.insertionSort (· ≤ ·) l2 :=
  List.eq_of_perm_of_sorted
    (((List.perm_insertionSort _ l1).trans h).trans (List.perm_insertionSort _ l2).symm)
    (List.sorted_insertionSort _ l1) (List.sorted_insertionSort _ l2)

lemma newQueueOf_perm {games games2 : List RawGame} (s : MonitorState)
    (h : List.Perm games games2) :
    List.Perm (newQueueOf games s) (newQueueOf games2 s) :=
  (h.filter _).map _

lemma updQueueOf_perm {games games2 : List RawGame} (s : MonitorState)
    (h : List.Perm games games2) :
    List.Perm (updQueueOf games s) (updQueueOf games2 s) :=
  (h.filter _).map _

lemma buildMapFrom_apply_ne (gs : List RawGame) (m : String → Option GamePayload)
    (k : String) (h : ∀ g ∈ gs, gameTitle g ≠ k) : buildMapFrom m gs k = m k := by
  induction gs generalizing m with
  | nil => rfl
  | cons g tl ih =>
    unfold buildMapFrom
    rw [ih _ (fun g2 hg2 => h g2 (List.mem_cons_of_mem _ hg2))]
    rw [if_neg (fun he => (h g (List.mem_cons_self g tl)) he.symm)]

lemma buildCurrentMap_none_of_not_mem (games : List RawGame) (k : String)
    (h : k ∉ games.map gameTitle) : buildCurrentMap games k = none := by
  unfold buildCurrentMap
  rw [buildMapFrom_apply_ne]
  intro g hg he
  exact h (he ▸ List.mem_map_of_mem gameTitle hg)

/-- C3: per fetched game, classification against the current state: New iff
the title key is absent from seen_new; Updated iff the key is in seen_new
and the fresh payload dict differs from the cached one; present and
payload-identical produces no notification; and an image-only change of an
already-seen key gives exactly one Updated classification and no New one. -/
theorem c3_game_classification (games : List RawGame) (w : World)
    (hnd : (games.map gameTitle).Nodup) (g : RawGame) (hg : g ∈ games) :
    (gameTitle g ∈ (process_games_new_updated games w).newQueue ↔
      gameTitle g ∉ w.state.seen_new)
    ∧ (gameTitle g ∈ (process_games_new_updated games w).updateQueue ↔
        (gameTitle g ∈ w.state.seen_new ∧
         cacheGet w.state.game_cache (gameTitle g) ≠ CacheVal.payloadDict (gamePayload g)))
    ∧ ((gameTitle g ∈ w.state.seen_new ∧
        cacheGet w.state.game_cache (gameTitle g) = CacheVal.payloadDict (gamePayload g)) →
        gameTitle g ∉ (process_games_new_updated games w).notifiedNew
        ∧ gameTitle g ∉ (process_games_new_updated games w).notifiedUpd)
    ∧ (∀ a i1 i2, w.state.game_cache (gameTitle g) = some ⟨a, i1⟩ →
        gamePayload g = ⟨a, i2⟩ → i1 ≠ i2 → gameTitle g ∈ w.state.seen_new →
        (process_games_new_updated games w).updateQueue.count (gameTitle g) = 1
        ∧ gameTitle g ∉ (process_games_new_updated games w).newQueue) := by
  have hne : ¬ games.isEmpty := by
    cases games with
    | nil => cases hg
    | cons a l => simp
  rw [process_games_ne hne]
  dsimp only
  refine ⟨?_, ?_, ?_, ?_⟩
  · constructor
    · intro h
      rcases mem_newQueueOf.mp h with ⟨g2, -, -, hns⟩
      exact hns
    · intro h
      exact mem_newQueueOf.mpr ⟨g, hg, rfl, h⟩
  · constructor
    · intro h
      rcases mem_updQueueOf.mp h with ⟨g2, hg2, he, hs, hneq⟩
      have hgg : g2 = g := List.inj_on_of_nodup_map hnd hg2 hg he
      subst hgg
      exact ⟨hs, hneq⟩
    · rintro ⟨hs, hneq⟩
      exact mem_updQueueOf.mpr ⟨g, hg, rfl, hs, hneq⟩
  · rintro ⟨hs, heq⟩
    constructor
    · split
      · intro hmem
        exact not_mem_newQueueOf_of_seen hs
          ((List.perm_insertionSort (· ≤ ·) (newQueueOf games w.state)).mem_iff.mp hmem)
      · simp
    · split
      · intro hmem
        have h2 := (List.perm_insertionSort (· ≤ ·) (updQueueOf games w.state)).mem_iff.mp hmem
        rcases mem_updQueueOf.mp h2 with ⟨g2, hg2, he, -, hneq⟩
        have hgg : g2 = g := List.inj_on_of_nodup_map hnd hg2 hg he
        subst hgg
        exact hneq heq
      · simp
  · intro a i1 i2 hc hp hne2 hs
    constructor
    · have hsub : List.Sublist (updQueueOf games w.state) (games.map gameTitle) := by
        unfold updQueueOf
        exact (List.filter_sublist games).map gameTitle
      have hnodupUpd : (updQueueOf games w.state).Nodup := hnd.sublist hsub
      have hmem : gameTitle g ∈ updQueueOf games w.state := by
        refine mem_updQueueOf.mpr ⟨g, hg, rfl, hs, ?_⟩
        intro heq2
        unfold cacheGet at heq2
        rw [hc] at heq2
        have hpp : gamePayload g = ⟨a, i1⟩ := (CacheVal.payloadDict.injEq _ _).mp heq2.symm
        rw [hp] at hpp
        exact hne2 ((GamePayload.mk.injEq _ _ _ _).mp hpp).2.symm
      exact List.count_eq_one_of_mem hnodupUpd hmem
    · intro hmem
      rcases mem_newQueueOf.mp hmem with ⟨-, -, -, hns⟩
      exact hns hs

/-- C3 witness: a single fetched record "Alpha" whose image changed from
"x" (cached) to "y", with "Alpha" already in seen_new. -/
theorem c3_game_classification_witness :
    (([gAlphaY].map gameTitle).Nodup ∧ gAlphaY ∈ [gAlphaY])
    ∧ ((gameTitle gAlphaY ∈ (process_games_new_updated [gAlphaY] worldSeenAlpha).newQueue ↔
         gameTitle gAlphaY ∉ worldSeenAlpha.state.seen_new)
      ∧ (gameTitle gAlphaY ∈ (process_games_new_updated [gAlphaY] worldSeenAlpha).updateQueue ↔
          (gameTitle gAlphaY ∈ worldSeenAlpha.state.seen_new ∧
           cacheGet worldSeenAlpha.state.game_cache (gameTitle gAlphaY) ≠
             CacheVal.payloadDict (gamePayload gAlphaY)))
      ∧ ((gameTitle gAlphaY ∈ worldSeenAlpha.state.seen_new ∧
          cacheGet worldSeenAlpha.state.game_cache (gameTitle gAlphaY) =
            CacheVal.payloadDict (gamePayload gAlphaY)) →
          gameTitle gAlphaY ∉ (process_games_new_updated [gAlphaY] worldSeenAlpha).notifiedNew
          ∧ gameTitle gAlphaY ∉ (process_games_new_updated [gAlphaY] worldSeenAlpha).notifiedUpd)
      ∧ (∀ a i1 i2, worldSeenAlpha.state.game_cache (gameTitle gAlphaY) = some ⟨a, i1⟩ →
          gamePayload gAlphaY = ⟨a, i2⟩ → i1 ≠ i2 → gameTitle gAlphaY ∈ worldSeenAlpha.state.seen_new →
          (process_games_new_updated [gAlphaY] worldSeenAlpha).updateQueue.count (gameTitle gAlphaY) = 1
          ∧ gameTitle gAlphaY ∉ (process_games_new_updated [gAlphaY] worldSeenAlpha).newQueue)) :=
  ⟨⟨by decide, by decide⟩,
   c3_game_classification [gAlphaY] worldSeenAlpha (by decide) gAlphaY (by decide)⟩

/-- C5: across any sequence of poll cycles the three seen-sets only grow
(unconditionally), and per feature: a key in seen_new is never classified
New by the games pipeline of any later poll cycle, and a key in seen_fixed
is never classified New by the fixes pipeline of any later poll cycle —
each membership hypothesis needed only for its own feature's conclusion. -/
theorem c5_seen_keys_never_renew (hist : List (List RawGame × ScrapeAttempt))
    (w : World) (k : String) (games2 : List RawGame) (att2 : ScrapeAttempt) :
    w.state.seen_new ⊆ (runPolls hist w).state.seen_new
    ∧ w.state.seen_update ⊆ (runPolls hist w).state.seen_update
    ∧ w.state.seen_fixed ⊆ (runPolls hist w).state.seen_fixed
    ∧ (k ∈ w.state.seen_new →
        k ∉ (process_games_new_updated games2 (runPolls hist w)).newQueue)
    ∧ (k ∈ w.state.seen_fixed →
        k ∉ (process_fixes att2 (runPolls hist w)).newTitles) := by
  refine ⟨runPolls_seen_new_subset hist w, runPolls_seen_update_subset hist w,
    runPolls_seen_fixed_subset hist w, ?_, ?_⟩
  · intro hknew
    have hk2 : k ∈ (runPolls hist w).state.seen_new :=
      runPolls_seen_new_subset hist w hknew
    rcases newQueue_sub_newQueueOf games2 (runPolls hist w) with h | h <;> rw [h]
    · exact List.not_mem_nil k
    · exact not_mem_newQueueOf_of_seen hk2
  · intro hkfix hmem
    exact mem_newTitles_fixes hmem (runPolls_seen_fixed_subset hist w hkfix)

/-- C5 witness: after one poll cycle that fetches "Beta", the key "Alpha"
seen at the start is not classified New by a further games cycle fetching
it, nor by a further fixes cycle scraping it; each per-feature membership
hypothesis is discharged separately at the concrete state. -/
theorem c5_seen_keys_never_renew_witness :
    (worldSeenAlpha.state.seen_new ⊆
        (runPolls [([gBeta], ScrapeAttempt.err)] worldSeenAlpha).state.seen_new
      ∧ worldSeenAlpha.state.seen_update ⊆
        (runPolls [([gBeta], ScrapeAttempt.err)] worldSeenAlpha).state.seen_update
      ∧ worldSeenAlpha.state.seen_fixed ⊆
        (runPolls [([gBeta], ScrapeAttempt.err)] worldSeenAlpha).state.seen_fixed)
    ∧ ("Alpha" ∈ worldSeenAlpha.state.seen_new
       ∧ "Alpha" ∉ (process_games_new_updated [gAlpha]
          (runPolls [([gBeta], ScrapeAttempt.err)] worldSeenAlpha)).newQueue)
    ∧ ("Alpha" ∈ worldSeenAlpha.state.seen_fixed
       ∧ "Alpha" ∉ (process_fixes (ScrapeAttempt.ok [fixItemOne])
          (runPolls [([gBeta], ScrapeAttempt.err)] worldSeenAlpha)).newTitles) :=
  ⟨⟨(c5_seen_keys_never_renew [([gBeta], ScrapeAttempt.err)] worldSeenAlpha "Alpha"
      [gAlpha] (ScrapeAttempt.ok [fixItemOne])).1,
    (c5_seen_keys_never_renew [([gBeta], ScrapeAttempt.err)] worldSeenAlpha "Alpha"
      [gAlpha] (ScrapeAttempt.ok [fixItemOne])).2.1,
    (c5_seen_keys_never_renew [([gBeta], ScrapeAttempt.err)] worldSeenAlpha "Alpha"
      [gAlpha] (ScrapeAttempt.ok [fixItemOne])).2.2.1⟩,
   ⟨by decide,
    (c5_seen_keys_never_renew [([gBeta], ScrapeAttempt.err)] worldSeenAlpha "Alpha"
      [gAlpha] (ScrapeAttempt.ok [fixItemOne])).2.2.2.1 (by decide)⟩,
   ⟨by decide,
    (c5_seen_keys_never_renew [([gBeta], ScrapeAttempt.err)] worldSeenAlpha "Alpha"
      [gAlpha] (ScrapeAttempt.ok [fixItemOne])).2.2.2.2 (by decide)⟩⟩

/-- C6: game notifications are sent in lexicographically sorted key order
for New and Updated batches, and the sorted batches are invariant under
permutation of the fetch order; when the respective binding is truthy each
batch is a permutation of its classification queue; fix notifications
preserve the fetched insertion order (they form a sublist of the fetched
title sequence, equal to the New-titles list when the binding is truthy). -/
theorem c6_notification_order (games games2 : List RawGame) (att : ScrapeAttempt)
    (w : World) (hperm : List.Perm games games2) :
    (process_games_new_updated games w).notifiedNew.Sorted (· ≤ ·)
    ∧ (process_games_new_updated games w).notifiedUpd.Sorted (· ≤ ·)
    ∧ (process_games_new_updated games2 w).notifiedNew =
        (process_games_new_updated games w).notifiedNew
    ∧ (process_games_new_updated games2 w).notifiedUpd =
        (process_games_new_updated games w).notifiedUpd
    ∧ (chanTruthy w.state.channel_id_new = true →
        List.Perm (process_games_new_updated games w).notifiedNew
          (process_games_new_updated games w).newQueue)
    ∧ (chanTruthy w.state.channel_id_update = true →
        List.Perm (process_games_new_updated games w).notifiedUpd
          (process_games_new_updated games w).updateQueue)
    ∧ List.Sublist (process_fixes att w).notified
        ((scrape_fixes_with_playwright att w.fixesCache).1.map FixEntry.title)
    ∧ (chanTruthy w.state.channel_id_fixed = true →
        (process_fixes att w).notified = (process_fixes att w).newTitles) := by
  refine ⟨?_, ?_, ?_, ?_, ?_, ?_, ?_, ?_⟩
  · by_cases h : games.isEmpty
    · rw [process_games_empty h]
      exact List.sorted_nil
    · rw [process_games_ne h]
      dsimp only
      split
      · exact List.sorted_insertionSort _ _
      · exact List.sorted_nil
  · by_cases h : games.isEmpty
    · rw [process_games_empty h]
      exact List.sorted_nil
    · rw [process_games_ne h]
      dsimp only
      split
      · exact List.sorted_insertionSort _ _
      · exact List.sorted_nil
  · by_cases hge : games.isEmpty
    · have hg1 : games = [] := by
        cases games with
        | nil => rfl
        | cons a l => simp at hge
      subst hg1
      have hg2 : games2 = [] := hperm.symm.eq_nil
      subst hg2
      rfl
    · have hge2 : ¬ games2.isEmpty := by
        intro h2
        have hg2 : games2 = [] := by
          cases games2 with
          | nil => rfl
          | cons a l => simp at h2
        rw [hg2] at hperm
        rw [hperm.eq_nil] at hge
        exact hge rfl
      rw [process_games_ne hge, process_games_ne hge2]
      dsimp only
      have hpN := newQueueOf_perm w.state hperm
      have hnilN : (newQueueOf games w.state = []) ↔ (newQueueOf games2 w.state = []) := by
        constructor <;> intro h
        · rw [h] at hpN
          exact hpN.symm.eq_nil
        · rw [h] at hpN
          exact hpN.eq_nil
      have hdN : decide (newQueueOf games2 w.state ≠ []) =
          decide (newQueueOf games w.state ≠ []) :=
        decide_eq_decide.mpr (not_congr hnilN.symm)
      rw [hdN]
      split
      · exact insertionSort_eq_of_perm hpN.symm
      · rfl
  · by_cases hge : games.isEmpty
    · have hg1 : games = [] := by
        cases games with
        | nil => rfl
        | cons a l => simp at hge
      subst hg1
      have hg2 : games2 = [] := hperm.symm.eq_nil
      subst hg2
      rfl
    · have hge2 : ¬ games2.isEmpty := by
        intro h2
        have hg2 : games2 = [] := by
          cases games2 with
          | nil => rfl
          | cons a l => simp at h2
        rw [hg2] at hperm
        rw [hperm.eq_nil] at hge
        exact hge rfl
      rw [process_games_ne hge, process_games_ne hge2]
      dsimp only
      have hpU := updQueueOf_perm w.state hperm
      have hnilU : (updQueueOf games w.state = []) ↔ (updQueueOf games2 w.state = []) := by
        constructor <;> intro h
        · rw [h] at hpU
          exact hpU.symm.eq_nil
        · rw [h] at hpU
          exact hpU.eq_nil
      have hdU : decide (updQueueOf games2 w.state ≠ []) =
          decide (updQueueOf games w.state ≠ []) :=
        decide_eq_decide.mpr (not_congr hnilU.symm)
      rw [hdU]
      split
      · exact insertionSort_eq_of_perm hpU.symm
      · rfl
  · intro hch
    by_cases hge : games.isEmpty
    · rw [process_games_empty hge]
    · rw [process_games_ne hge]
      dsimp only
      rw [hch]
      by_cases hq : newQueueOf games w.state = []
      · simp [hq]
      · rw [if_pos (by simp [hq])]
        exact List.perm_insertionSort _ _
  · intro hch
    by_cases hge : games.isEmpty
    · rw [process_games_empty hge]
    · rw [process_games_ne hge]
      dsimp only
      rw [hch]
      by_cases hq : updQueueOf games w.state = []
      · simp [hq]
      · rw [if_pos (by simp [hq])]
        exact List.perm_insertionSort _ _
  · unfold process_fixes
    dsimp only
    split
    · exact List.nil_sublist _
    · split
      · exact List.nil_sublist _
      · split
        · exact (List.filter_sublist _).map FixEntry.title
        · exact List.nil_sublist _
  · intro hch
    unfold process_fixes
    dsimp only
    split
    · rfl
    · split
      · rfl
      · rfl

/-- C6 witness: two fetched games in either order, all bindings set. -/
theorem c6_notification_order_witness :
    List.Perm [gAlpha, gBeta] [gBeta, gAlpha]
    ∧ ((process_games_new_updated [gAlpha, gBeta] worldAllChannels).notifiedNew.Sorted (· ≤ ·)
      ∧ (process_games_new_updated [gAlpha, gBeta] worldAllChannels).notifiedUpd.Sorted (· ≤ ·)
      ∧ (process_games_new_updated [gBeta, gAlpha] worldAllChannels).notifiedNew =
          (process_games_new_updated [gAlpha, gBeta] worldAllChannels).notifiedNew
      ∧ (process_games_new_updated [gBeta, gAlpha] worldAllChannels).notifiedUpd =
          (process_games_new_updated [gAlpha, gBeta] worldAllChannels).notifiedUpd
      ∧ (chanTruthy worldAllChannels.state.channel_id_new = true →
          List.Perm (process_games_new_updated [gAlpha, gBeta] worldAllChannels).notifiedNew
            (process_games_new_updated [gAlpha, gBeta] worldAllChannels).newQueue)
      ∧ (chanTruthy worldAllChannels.state.channel_id_update = true →
          List.Perm (process_games_new_updated [gAlpha, gBeta] worldAllChannels).notifiedUpd
            (process_games_new_updated [gAlpha, gBeta] worldAllChannels).updateQueue)
      ∧ List.Sublist (process_fixes (ScrapeAttempt.ok [fixItemOne]) worldAllChannels).notified
          ((scrape_fixes_with_playwright (ScrapeAttempt.ok [fixItemOne])
             worldAllChannels.fixesCache).1.map FixEntry.title)
      ∧ (chanTruthy worldAllChannels.state.channel_id_fixed = true →
          (process_fixes (ScrapeAttempt.ok [fixItemOne]) worldAllChannels).notified =
            (process_fixes (ScrapeAttempt.ok [fixItemOne]) worldAllChannels).newTitles)) :=
  ⟨by decide,
   c6_notification_order [gAlpha, gBeta] [gBeta, gAlpha] (ScrapeAttempt.ok [fixItemOne])
     worldAllChannels (by decide)⟩

/-- C10: on a non-empty fetch the payload cache is replaced wholesale by the
map of the fetched keys, so a key absent from the fetch loses its recorded
payload while staying in seen_new; consequently a seen key with no recorded
payload is classified Updated (never New) by any later poll that fetches
it, whatever payload it then carries. -/
theorem c10_cache_wholesale (games : List RawGame) (w : World)
    (hne : ¬ games.isEmpty) :
    (∀ k, (process_games_new_updated games w).world.state.game_cache k =
        buildCurrentMap games k)
    ∧ (∀ k, k ∉ games.map gameTitle →
        (process_games_new_updated games w).world.state.game_cache k = none)
    ∧ w.state.seen_new ⊆ (process_games_new_updated games w).world.state.seen_new
    ∧ (∀ (games2 : List RawGame) (g2 : RawGame), g2 ∈ games2 →
        gameTitle g2 ∈ (process_games_new_updated games w).world.state.seen_new →
        (process_games_new_updated games w).world.state.game_cache (gameTitle g2) = none →
        gameTitle g2 ∈ (process_games_new_updated games2
            (process_games_new_updated games w).world).updateQueue
        ∧ gameTitle g2 ∉ (process_games_new_updated games2
            (process_games_new_updated games w).world).newQueue) := by
  refine ⟨?_, ?_, seen_new_subset_games games w, ?_⟩
  · intro k
    rw [process_games_ne hne]
  · intro k hk
    rw [process_games_ne hne]
    exact buildCurrentMap_none_of_not_mem games k hk
  · intro games2 g2 hg2 hseen hcache
    have hne2 : ¬ games2.isEmpty := by
      cases games2 with
      | nil => cases hg2
      | cons a l => simp
    rw [process_games_ne hne2]
    dsimp only
    constructor
    · refine mem_updQueueOf.mpr ⟨g2, hg2, rfl, hseen, ?_⟩
      unfold cacheGet
      rw [hcache]
      intro hco
      cases hco
    · intro hmem
      rcases mem_newQueueOf.mp hmem with ⟨-, -, -, hns⟩
      exact hns hseen

/-- C10 witness: "Beta" is already seen with a cached payload; a poll
fetching only "Alpha" wipes Beta's cache entry; a later poll fetching
"Beta" with its original payload classifies it Updated, not New. -/
theorem c10_cache_wholesale_witness :
    (¬ ([gAlpha] : List RawGame).isEmpty
     ∧ gBeta ∈ [gBeta]
     ∧ gameTitle gBeta ∈ (process_games_new_updated [gAlpha] worldSeenBeta).world.state.seen_new
     ∧ (process_games_new_updated [gAlpha] worldSeenBeta).world.state.game_cache
         (gameTitle gBeta) = none)
    ∧ (∀ k, (process_games_new_updated [gAlpha] worldSeenBeta).world.state.game_cache k =
        buildCurrentMap [gAlpha] k)
    ∧ worldSeenBeta.state.seen_new ⊆
        (process_games_new_updated [gAlpha] worldSeenBeta).world.state.seen_new
    ∧ (gameTitle gBeta ∈ (process_games_new_updated [gBeta]
          (process_games_new_updated [gAlpha] worldSeenBeta).world).updateQueue
       ∧ gameTitle gBeta ∉ (process_games_new_updated [gBeta]
          (process_games_new_updated [gAlpha] worldSeenBeta).world).newQueue) :=
  ⟨⟨by decide, by decide, by decide, by decide⟩,
   (c10_cache_wholesale [gAlpha] worldSeenBeta (by decide)).1,
   (c10_cache_wholesale [gAlpha] worldSeenBeta (by decide)).2.2.1,
   (c10_cache_wholesale [gAlpha] worldSeenBeta (by decide)).2.2.2 [gBeta] gBeta
     (by decide) (by decide) (by decide)⟩
